import Mathlib

/-!
Verification of the ci-badge-reddit badge service (`src/app.py`).

The repository serves CI/deploy status badges behind two Flask routes,
`/last.svg` (handler `last_test`) and `/appdeployed` (handler
`app_deployed`).  Each handler validates its configuration, performs a
read-through lookup in a redis store, falls back to an upstream fetch on a
miss, and caches a validated result with a TTL.

Shallow embedding choices:
* The redis store is a `Store`: an association list of
  `(key, value, ttl)` entries together with two flags saying whether the
  `get` call and the `set` call succeed.  A failing `get` raises
  `redis.exceptions.ConnectionError`, which `app.py` catches; a failing
  `set` raises the same exception, which `app.py` does not catch.
* Environment variables (`HEROKU_AUTH_TOKEN`, `PIPELINE_ID`, `REDIS_URL`,
  `CACHE_TIMEOUT`) are an `Env` of `Option String`s, read at request time.
* The upstream fetch functions live in `heroku.py`, which is not part of
  the sources; they are passed to the handlers as parameters
  (`Option String` for `get_last_test_run_status`, `String → String` on
  the request URL for `check_if_app_is_deployed`).
* A handler run yields an `Outcome`: the response, the store after the
  run, and how many times the cache `get` and the upstream fetch were
  invoked.  Responses are either a file served from the badge directory,
  a Python `AssertionError` (the `assert` in `send_badge_file`), or an
  uncaught exception escaping the handler (the unprotected `r.set`).
* Strings are Lean `String`s; the ascii `decode` of a cached bytes value
  is the identity.  Python's Unicode `str.isdigit` and `int()` are
  modelled exactly, from CPython's Unicode character database: `isdigit`
  accepts every character of Numeric_Type Decimal or Digit, while `int()`
  parses only Decimal characters (any script) and raises `ValueError` on
  a Digit-only character such as a superscript — uncaught in `app.py`, so
  that parse error crashes the request before the cache write.
-/

/-- Constant `CACHE_TIMEOUT_DEFAULT = 900` from `app.py`. -/
def CACHE_TIMEOUT_DEFAULT : Nat := 900

/-- Tuple `BADGES_ENUM = ('succeeded', 'failed', 'errored')` from `app.py`. -/
def BADGES_ENUM : List String := ["succeeded", "failed", "errored"]

/-- Tuple `FILES_ENUM = BADGES_ENUM + ('error',)` from `app.py`. -/
def FILES_ENUM : List String := BADGES_ENUM ++ ["error"]

/-- Modelled from the spec: `heroku.py` (`check_if_app_is_deployed`) is not
among the sources.  The spec's data model gives the deploy-status tokens as
the provider-defined pair `heroku-succeeded` / `heroku-failed`, and its
collaborator interface `fetchAppDeployed(url) -> token` always returns a
token (never an absent result). -/
def DEPLOY_ENUM : List String := ["heroku-succeeded", "heroku-failed"]

/-- What a handler hands back to Flask. -/
inductive Response where
  /-- Flask `send_from_directory(BADGE_DIR, path)`: a file served from `./badges`. -/
  | file (path : String)
  /-- The `assert badge in FILES_ENUM` in `send_badge_file` failed
  (Python `AssertionError`). -/
  | assertFail
  /-- An exception escaped the handler uncaught (the unprotected `r.set`
  raising `redis.exceptions.ConnectionError`). -/
  | uncaught
  deriving DecidableEq, Repr

/-- Function `send_badge_file(badge)` from `app.py`: asserts membership in
`FILES_ENUM`, then serves `'{}.svg'.format(badge)` from the badge dir. -/
def send_badge_file (badge : String) : Response :=
  if badge ∈ FILES_ENUM then Response.file (badge ++ ".svg")
  else Response.assertFail

/-- Function `send_heroku_badge(badge_name, style, file_extension)` from `app.py`:
serves `f'{badge_name}{style}.{file_extension}'`, with no validation. -/
def send_heroku_badge (badge_name style file_extension : String) : Response :=
  Response.file (badge_name ++ style ++ "." ++ file_extension)

/-- The redis store as seen by one request: the entries it holds plus
whether the `get` and `set` network calls succeed during this request. -/
structure Store where
  /-- Whether `r.get` succeeds; when `false` it raises `ConnectionError`. -/
  getConn : Bool
  /-- Whether `r.set` succeeds; when `false` it raises `ConnectionError`. -/
  setConn : Bool
  /-- Stored `(key, value, ttl)` entries, most recent write first. -/
  entries : List (String × String × Nat)
  deriving DecidableEq, Repr

/-- A successful `r.get(k)`: the value stored under `k`, if any. -/
def Store.get (st : Store) (k : String) : Option String :=
  (st.entries.find? (fun e => e.1 == k)).map (fun e => e.2.1)

/-- The ttl (`ex=` argument of the last `r.set`) stored under `k`. -/
def Store.getTTL (st : Store) (k : String) : Option Nat :=
  (st.entries.find? (fun e => e.1 == k)).map (fun e => e.2.2)

/-- A successful `r.set(k, v, ex=ttl)`: records the entry; the new entry
shadows any older one with the same key. -/
def Store.set (st : Store) (k v : String) (ttl : Nat) : Store :=
  { st with entries := (k, v, ttl) :: st.entries }

/-- The environment variables `app.py` reads, each possibly unset. -/
structure Env where
  heroku_auth_token : Option String
  pipeline_id : Option String
  redis_url : Option String
  cache_timeout : Option String
  deriving DecidableEq, Repr

/-- The query parameters of a `/appdeployed` request, each possibly
absent.  Flask query-parameter values are always strings. -/
structure Req where
  app : Option String
  style : Option String
  svg : Option String
  root : Option String
  deriving DecidableEq, Repr

/-- Everything observable about one handler run. -/
structure Outcome where
  resp : Response
  store : Store
  /-- How many times `r.get` was called (counting a call that raised). -/
  getCount : Nat
  /-- How many times the upstream fetch function was called. -/
  fetchCount : Nat
  deriving DecidableEq, Repr

/-- Base code points of the Unicode Numeric_Type=Decimal runs (category
Nd): each entry `b` starts a run `b .. b+9` of digits with values `0..9`.
Generated from CPython's Unicode character database (unidata 14.0.0);
these are exactly the characters `int()` can parse. -/
def PY_DECIMAL_BASES : List Nat :=
  [48, 1632, 1776, 1984, 2406, 2534, 2662, 2790, 2918, 3046, 3174, 3302,
   3430, 3558, 3664, 3792, 3872, 4160, 4240, 6112, 6160, 6470, 6608, 6784,
   6800, 6992, 7088, 7232, 7248, 42528, 43216, 43264, 43472, 43504, 43600,
   44016, 65296, 66720, 68912, 69734, 69872, 69942, 70096, 70384, 70736,
   70864, 71248, 71360, 71472, 71904, 72016, 72784, 73040, 73120, 92768,
   92864, 93008, 120782, 120792, 120802, 120812, 120822, 123200, 123632,
   125264, 130032]

/-- Code-point ranges of the characters with Numeric_Type=Digit but not
Decimal (superscripts, subscripts, circled digits, ...): `str.isdigit`
accepts them but `int()` raises `ValueError` on them.  Generated from
CPython's Unicode character database (unidata 14.0.0). -/
def PY_DIGIT_ONLY_RANGES : List (Nat × Nat) :=
  [(178, 179), (185, 185), (4969, 4977), (6618, 6618), (8304, 8304),
   (8308, 8313), (8320, 8329), (9312, 9320), (9332, 9340), (9352, 9360),
   (9450, 9450), (9461, 9469), (9471, 9471), (10102, 10110),
   (10112, 10120), (10122, 10130), (68160, 68163), (69216, 69224),
   (69714, 69722), (127232, 127242)]

/-- The decimal value of a Unicode decimal digit (category Nd), in any
script; `none` for every other character.  Python's `int()` accepts
exactly these characters of an `isdigit` string. -/
def py_char_decimal (c : Char) : Option Nat :=
  (PY_DECIMAL_BASES.find? (fun b => b ≤ c.toNat && c.toNat ≤ b + 9)).map
    (fun b => c.toNat - b)

/-- Python's per-character digit test: Numeric_Type Decimal or Digit. -/
def py_char_isdigit (c : Char) : Bool :=
  (py_char_decimal c).isSome ||
    PY_DIGIT_ONLY_RANGES.any (fun r => r.1 ≤ c.toNat && c.toNat ≤ r.2)

/-- Python `str.isdigit`: nonempty and every character a digit (Unicode
Numeric_Type Decimal or Digit). -/
def py_isdigit (s : String) : Bool :=
  !s.data.isEmpty && s.data.all py_char_isdigit

/-- Python `int()` on the strings reachable under the `isdigit()` guard
(no sign, whitespace or underscore characters occur there): the base-10
value of the decimal digits, or `none` for the `ValueError` raised when
some character is not a decimal digit. -/
def py_int_parse (s : String) : Option Nat :=
  if s.data.isEmpty then none
  else s.data.foldl
    (fun acc c =>
      match acc, py_char_decimal c with
      | some n, some d => some (n * 10 + d)
      | _, _ => none)
    (some 0)

/-- Outcome of evaluating the `CACHE_TIMEOUT` environment variable. -/
inductive TimeoutEval where
  /-- A timeout value was obtained: the parsed override or the default. -/
  | ok (n : Nat)
  /-- Python `int()` raised `ValueError` — uncaught in `app.py`. -/
  | valueError
  deriving DecidableEq, Repr

/-- Lines 88-96 / 149-157 of `app.py`:
`cache_timeout = os.getenv('CACHE_TIMEOUT', str(CACHE_TIMEOUT_DEFAULT))`,
then `int(cache_timeout)` if it `isdigit()` — which raises an uncaught
`ValueError` when the string passes `isdigit()` with a non-decimal digit
character — else the default with an error logged. -/
def timeout_eval (cache_timeout_env : Option String) : TimeoutEval :=
  let ct := cache_timeout_env.getD (toString CACHE_TIMEOUT_DEFAULT)
  if py_isdigit ct then
    match py_int_parse ct with
    | some n => TimeoutEval.ok n
    | none => TimeoutEval.valueError
  else TimeoutEval.ok CACHE_TIMEOUT_DEFAULT

/-- A Python value that is either an int or a str, as needed for the
`svg` parameter: `request.args.get('svg', 0)` yields the int `0` when the
parameter is absent and a string otherwise. -/
inductive PyVal where
  | pint (n : Int)
  | pstr (s : String)
  deriving DecidableEq, Repr

/-- Python `==` on such values: ints compare to ints, strs to strs, and
an int never equals a str. -/
def pyEq : PyVal → PyVal → Bool
  | PyVal.pint a, PyVal.pint b => a == b
  | PyVal.pstr a, PyVal.pstr b => a == b
  | _, _ => false

/-- Line 108 + 110-112 of `app.py`: `svg = request.args.get('svg', 0)`;
`file_extension = 'png'`; `if svg == 1: file_extension = 'svg'`. -/
def deployExt (req : Req) : String :=
  let svg := match req.svg with
    | some s => PyVal.pstr s
    | none => PyVal.pint 0
  if pyEq svg (PyVal.pint 1) then "svg" else "png"

/-- Line 107 + 113-114 of `app.py`: `style = request.args.get('style', '')`;
`if style == 'flat': style = f'-{style}'`. -/
def deployStyle (req : Req) : String :=
  let style := req.style.getD ""
  if style == "flat" then "-" ++ style else style

/-- The `/last.svg` handler `last_test` (lines 41-100 of `app.py`).
`fetch` is the value `get_last_test_run_status()` would return, `none`
standing for Python `None`. -/
def last_test (env : Env) (st : Store) (fetch : Option String) : Outcome :=
  if env.heroku_auth_token = none then
    ⟨send_badge_file "error", st, 0, 0⟩
  else if env.pipeline_id = none then
    ⟨send_badge_file "error", st, 0, 0⟩
  else if env.redis_url = none then
    ⟨send_badge_file "error", st, 0, 0⟩
  else if st.getConn = false then
    -- r.get('build_result') raised ConnectionError, caught on line 66
    ⟨send_badge_file "error", st, 1, 0⟩
  else match st.get "build_result" with
    | some result =>
      -- cache hit: return the decoded cached value as-is
      ⟨send_badge_file result, st, 1, 0⟩
    | none =>
      match fetch with
      | none =>
        -- could not get result from Heroku
        ⟨send_badge_file "error", st, 1, 1⟩
      | some result =>
        if result ∉ BADGES_ENUM then
          -- unexpected build status
          ⟨send_badge_file "error", st, 1, 1⟩
        else
          match timeout_eval env.cache_timeout with
          | TimeoutEval.valueError =>
            -- int(cache_timeout) on line 92 raised; nothing catches it
            ⟨Response.uncaught, st, 1, 1⟩
          | TimeoutEval.ok cache_timeout =>
            if st.setConn then
              ⟨send_badge_file result,
                st.set "build_result" result cache_timeout, 1, 1⟩
            else
              -- r.set on line 99 raised; nothing catches it
              ⟨Response.uncaught, st, 1, 1⟩

/-- The `/appdeployed` handler `app_deployed` (lines 103-161 of `app.py`).
`fetch` is the function `check_if_app_is_deployed`, applied to the URL
`f'https://{app_name}.herokuapp.com/{root}'`. -/
def app_deployed (env : Env) (req : Req) (st : Store)
    (fetch : String → String) : Outcome :=
  let style := deployStyle req
  let file_extension := deployExt req
  match req.app with
  | none =>
    ⟨send_heroku_badge "heroku-failed" style file_extension, st, 0, 0⟩
  | some app_name =>
    if env.redis_url = none then
      ⟨send_heroku_badge "heroku-failed" style file_extension, st, 0, 0⟩
    else if st.getConn = false then
      -- r.get(f'{app_name}_deployed') raised ConnectionError, caught
      ⟨send_heroku_badge "heroku-failed" style file_extension, st, 1, 0⟩
    else match st.get (app_name ++ "_deployed") with
      | some result =>
        -- cache hit: return the decoded cached value as-is
        ⟨send_heroku_badge result style file_extension, st, 1, 0⟩
      | none =>
        let url := "https://" ++ app_name ++ ".herokuapp.com/"
          ++ req.root.getD ""
        let result := fetch url
        match timeout_eval env.cache_timeout with
        | TimeoutEval.valueError =>
          -- int(cache_timeout) on line 153 raised; nothing catches it
          ⟨Response.uncaught, st, 1, 1⟩
        | TimeoutEval.ok cache_timeout =>
          if st.setConn then
            ⟨send_heroku_badge result style file_extension,
              st.set (app_name ++ "_deployed") result cache_timeout, 1, 1⟩
          else
            -- r.set on line 160 raised; nothing catches it
            ⟨Response.uncaught, st, 1, 1⟩

/-- A value is valid for a key: the build-result key may only hold tokens
of `BADGES_ENUM`, an `{app}_deployed` key only tokens of `DEPLOY_ENUM`. -/
def validFor (k v : String) : Prop :=
  (k = "build_result" → v ∈ BADGES_ENUM) ∧
  ((∃ a, k = a ++ "_deployed") → v ∈ DEPLOY_ENUM)

/-- Every entry of the store holds a token valid for its key. -/
def storeValid (st : Store) : Prop :=
  ∀ e ∈ st.entries, validFor e.1 e.2.1

/-- A fully configured environment (no `CACHE_TIMEOUT` override). -/
def envFull : Env := ⟨some "token", some "pipeline", some "redis-url", none⟩

/-- An environment with no variables set. -/
def envNone : Env := ⟨none, none, none, none⟩

/-- A fully configured environment whose `CACHE_TIMEOUT` is malformed. -/
def envBadTimeout : Env :=
  ⟨some "token", some "pipeline", some "redis-url", some "abc"⟩

/-- A fully configured environment whose `CACHE_TIMEOUT` is the
SUPERSCRIPT TWO character: `isdigit()` is true for it, `int()` raises. -/
def envSuper : Env :=
  ⟨some "token", some "pipeline", some "redis-url", some "²"⟩

/-- A fully configured environment whose `CACHE_TIMEOUT` is the
ARABIC-INDIC DIGIT THREE: `isdigit()` is true and `int()` parses it as 3. -/
def envArabic : Env :=
  ⟨some "token", some "pipeline", some "redis-url", some "٣"⟩

/-- An empty, fully working store. -/
def stEmpty : Store := ⟨true, true, []⟩

/-- A store whose `get` raises `ConnectionError`. -/
def stDown : Store := ⟨false, true, []⟩

/-- A store whose `get` works but whose `set` raises `ConnectionError`. -/
def stNoSet : Store := ⟨true, false, []⟩

/-- A working store pre-populated with a valid build result. -/
def stCached : Store := ⟨true, true, [("build_result", "succeeded", 900)]⟩

/-- A working store whose cached build result is outside `FILES_ENUM`. -/
def stGarbage : Store := ⟨true, true, [("build_result", "garbage", 900)]⟩

/-- A working store pre-populated with a deploy status for `myapp`. -/
def stDeployCached : Store :=
  ⟨true, true, [("myapp_deployed", "heroku-succeeded", 600)]⟩

/-- A `/appdeployed` request with all parameters supplied. -/
def reqApp : Req := ⟨some "myapp", some "flat", some "1", some "health"⟩

/-- A `/appdeployed` request with `svg=1` and no style. -/
def reqSvg1 : Req := ⟨some "myapp", none, some "1", none⟩

/-- A `/appdeployed` request with no parameters at all. -/
def reqNoApp : Req := ⟨none, none, none, none⟩

/-- No app name can make the deploy cache key collide with the build key:
`f'{app_name}_deployed'` never equals `'build_result'` (their last
characters differ). -/
theorem append_deployed_ne_build_result (a : String) :
    a ++ "_deployed" ≠ "build_result" := by
  intro h
  have hd : (a ++ "_deployed").data = "build_result".data := by rw [h]
  rw [String.data_append] at hd
  have h2 := congrArg (fun l => l.reverse.head?) hd
  simp [List.reverse_append] at h2

/-- Case analysis on `last_test`: the store either comes back unchanged,
or has gained exactly one `build_result` entry holding a token of
`BADGES_ENUM` with the successfully evaluated timeout. -/
theorem last_test_store_shape (env : Env) (st : Store) (fetch : Option String) :
    (last_test env st fetch).store = st ∨
    ∃ v n, v ∈ BADGES_ENUM ∧
      timeout_eval env.cache_timeout = TimeoutEval.ok n ∧
      (last_test env st fetch).store = st.set "build_result" v n := by
  unfold last_test
  split
  · exact Or.inl rfl
  split
  · exact Or.inl rfl
  split
  · exact Or.inl rfl
  split
  · exact Or.inl rfl
  split
  · exact Or.inl rfl
  split
  · exact Or.inl rfl
  split
  · exact Or.inl rfl
  next result hvalid =>
    split
    · exact Or.inl rfl
    next n hte =>
      split
      · exact Or.inr ⟨result, n, not_not.mp hvalid, hte, rfl⟩
      · exact Or.inl rfl

/-- Case analysis on `last_test`: the response is always `send_badge_file`
applied to some string, except when an exception escaped uncaught —
either the unprotected `r.set` raised, or `int(cache_timeout)` did. -/
theorem last_test_resp_shape (env : Env) (st : Store) (fetch : Option String) :
    (∃ b, (last_test env st fetch).resp = send_badge_file b) ∨
    ((last_test env st fetch).resp = Response.uncaught ∧
      (st.setConn = false ∨
        timeout_eval env.cache_timeout = TimeoutEval.valueError)) := by
  unfold last_test
  split
  · exact Or.inl ⟨"error", rfl⟩
  split
  · exact Or.inl ⟨"error", rfl⟩
  split
  · exact Or.inl ⟨"error", rfl⟩
  split
  · exact Or.inl ⟨"error", rfl⟩
  split
  next result _ => exact Or.inl ⟨result, rfl⟩
  split
  · exact Or.inl ⟨"error", rfl⟩
  next result =>
    split
    · exact Or.inl ⟨"error", rfl⟩
    split
    next hvalid hte => exact Or.inr ⟨rfl, Or.inr hte⟩
    next n hte =>
      split
      next hset => exact Or.inl ⟨result, rfl⟩
      next hset => exact Or.inr ⟨rfl, Or.inl (by simpa using hset)⟩

/-- Case analysis on `app_deployed`: the store either comes back
unchanged, or has gained exactly one `{app}_deployed` entry holding the
raw fetch result with the successfully evaluated timeout. -/
theorem app_deployed_store_shape (env : Env) (req : Req) (st : Store)
    (fetch : String → String) :
    (app_deployed env req st fetch).store = st ∨
    ∃ a n, req.app = some a ∧
      timeout_eval env.cache_timeout = TimeoutEval.ok n ∧
      (app_deployed env req st fetch).store
        = st.set (a ++ "_deployed")
            (fetch ("https://" ++ a ++ ".herokuapp.com/" ++ req.root.getD ""))
            n := by
  unfold app_deployed
  split
  · exact Or.inl rfl
  next a heq =>
    split
    · exact Or.inl rfl
    split
    · exact Or.inl rfl
    split
    · exact Or.inl rfl
    split
    · exact Or.inl rfl
    next n hte =>
      split
      · exact Or.inr ⟨a, n, heq, hte, rfl⟩
      · exact Or.inl rfl

/-- Case analysis on `app_deployed`: the response is always
`send_heroku_badge` with the request's style and extension, except when
an exception escaped uncaught — either the unprotected `r.set` raised,
or `int(cache_timeout)` did. -/
theorem app_deployed_resp_shape (env : Env) (req : Req) (st : Store)
    (fetch : String → String) :
    (∃ b, (app_deployed env req st fetch).resp
        = send_heroku_badge b (deployStyle req) (deployExt req)) ∨
    ((app_deployed env req st fetch).resp = Response.uncaught ∧
      (st.setConn = false ∨
        timeout_eval env.cache_timeout = TimeoutEval.valueError)) := by
  unfold app_deployed
  split
  · exact Or.inl ⟨"heroku-failed", rfl⟩
  split
  · exact Or.inl ⟨"heroku-failed", rfl⟩
  split
  · exact Or.inl ⟨"heroku-failed", rfl⟩
  split
  next result _ => exact Or.inl ⟨result, rfl⟩
  split
  next hte => exact Or.inr ⟨rfl, Or.inr hte⟩
  next n hte =>
    split
    next hset => exact Or.inl ⟨_, rfl⟩
    next hset => exact Or.inr ⟨rfl, Or.inl (by simpa using hset)⟩

/-- Writing a valid entry preserves validity of the whole store. -/
theorem storeValid_set (st : Store) (k v : String) (t : Nat)
    (hv : validFor k v) (h : storeValid st) : storeValid (st.set k v t) := by
  intro e he
  rcases List.mem_cons.mp he with he | he
  · subst he; exact hv
  · exact h e he

/-- Whatever its argument, `send_badge_file` never yields the
uncaught-exception outcome (its `assert` is an `AssertionError`, raised
inside the handler body). -/
theorem send_badge_file_ne_uncaught (b : String) :
    send_badge_file b ≠ Response.uncaught := by
  unfold send_badge_file
  split <;> simp

/-- When `send_badge_file` serves a file, its argument passed the
`FILES_ENUM` assertion and the path is the argument plus `.svg`. -/
theorem send_badge_file_eq_file (b p : String)
    (h : send_badge_file b = Response.file p) :
    b ∈ FILES_ENUM ∧ p = b ++ ".svg" := by
  unfold send_badge_file at h
  split at h
  · next hb => exact ⟨hb, (Response.file.injEq _ _ ▸ h.symm)⟩
  · simp at h

/-- C1: on `/last.svg`, whenever the upstream fetch returns an absent
result or a value outside `BADGES_ENUM`, the handler returns the error
sentinel badge and the store is not written; and both handlers preserve
the invariant that every cached value is a valid enumerated token for its
key (build tokens under `build_result`, deploy tokens under
`{app}_deployed`), never an unvalidated or sentinel value.  The deploy
fetch is assumed to return tokens of `DEPLOY_ENUM`, as modelled from the
spec for the missing `heroku.py`. -/
theorem c1_cache_never_holds_unvalidated :
    (∀ env st fetch, st.getConn = true → st.get "build_result" = none →
      (∀ v, fetch = some v → v ∉ BADGES_ENUM) →
      (last_test env st fetch).resp = send_badge_file "error" ∧
        (last_test env st fetch).store = st) ∧
    (∀ env st fetch, storeValid st → storeValid (last_test env st fetch).store) ∧
    (∀ env req st fetch, (∀ u, fetch u ∈ DEPLOY_ENUM) → storeValid st →
      storeValid (app_deployed env req st fetch).store) := by
  refine ⟨?_, ?_, ?_⟩
  · intro env st fetch hg hmiss hbad
    by_cases h1 : env.heroku_auth_token = none
    · simp [last_test, h1]
    by_cases h2 : env.pipeline_id = none
    · simp [last_test, h1, h2]
    by_cases h3 : env.redis_url = none
    · simp [last_test, h1, h2, h3]
    cases fetch with
    | none => simp [last_test, h1, h2, h3, hg, hmiss]
    | some v => simp [last_test, h1, h2, h3, hg, hmiss, hbad v rfl]
  · intro env st fetch h
    rcases last_test_store_shape env st fetch with hs | ⟨v, n, hv, _, hs⟩
    · rw [hs]; exact h
    · rw [hs]
      refine storeValid_set _ _ _ _ ⟨fun _ => hv, fun ha => ?_⟩ h
      obtain ⟨a, ha⟩ := ha
      exact absurd ha.symm (append_deployed_ne_build_result a)
  · intro env req st fetch hf h
    rcases app_deployed_store_shape env req st fetch with hs | ⟨a, n, _, _, hs⟩
    · rw [hs]; exact h
    · rw [hs]
      refine storeValid_set _ _ _ _ ⟨fun hk => ?_, fun _ => hf _⟩ h
      exact absurd hk (append_deployed_ne_build_result a)

/-- Witness for C1 at concrete inputs: an absent fetch on the configured
empty store yields the error badge and no write, and both handlers keep a
concrete valid store valid. -/
theorem c1_cache_never_holds_unvalidated_witness :
    ((last_test envFull stEmpty none).resp = send_badge_file "error" ∧
      (last_test envFull stEmpty none).store = stEmpty) ∧
    storeValid (last_test envFull stEmpty (some "succeeded")).store ∧
    storeValid (app_deployed envFull reqApp stEmpty
      (fun _ => "heroku-succeeded")).store := by
  refine ⟨c1_cache_never_holds_unvalidated.1 envFull stEmpty none rfl rfl
      (fun v hv => by cases hv),
    c1_cache_never_holds_unvalidated.2.1 envFull stEmpty (some "succeeded") ?_,
    c1_cache_never_holds_unvalidated.2.2 envFull reqApp stEmpty _
      (fun u => by decide) ?_⟩ <;>
  · intro e he
    exact absurd he (List.not_mem_nil e)

/-- C2: when the cache `get` raises `ConnectionError` (and the preceding
configuration checks pass, so the `get` is reached), each handler returns
its error sentinel badge immediately — the generic error badge for
`/last.svg`, the `heroku-failed` badge for `/appdeployed` — and the
upstream fetch is never invoked. -/
theorem c2_cache_down_short_circuits :
    (∀ env st fetch, env.heroku_auth_token ≠ none → env.pipeline_id ≠ none →
      env.redis_url ≠ none → st.getConn = false →
      (last_test env st fetch).resp = send_badge_file "error" ∧
        (last_test env st fetch).fetchCount = 0) ∧
    (∀ env req st fetch, req.app ≠ none → env.redis_url ≠ none →
      st.getConn = false →
      (app_deployed env req st fetch).resp
        = send_heroku_badge "heroku-failed" (deployStyle req) (deployExt req) ∧
        (app_deployed env req st fetch).fetchCount = 0) := by
  constructor
  · intro env st fetch h1 h2 h3 hg
    simp [last_test, h1, h2, h3, hg]
  · intro env req st fetch h1 h3 hg
    obtain ⟨a, ha⟩ := Option.ne_none_iff_exists'.mp h1
    simp [app_deployed, ha, h3, hg]

/-- Witness for C2 at a concrete unreachable store. -/
theorem c2_cache_down_short_circuits_witness :
    ((last_test envFull stDown none).resp = send_badge_file "error" ∧
      (last_test envFull stDown none).fetchCount = 0) ∧
    ((app_deployed envFull reqApp stDown (fun _ => "x")).resp
        = send_heroku_badge "heroku-failed" (deployStyle reqApp)
            (deployExt reqApp) ∧
      (app_deployed envFull reqApp stDown (fun _ => "x")).fetchCount = 0) :=
  ⟨c2_cache_down_short_circuits.1 envFull stDown none (by decide) (by decide)
      (by decide) rfl,
    c2_cache_down_short_circuits.2 envFull reqApp stDown _ (by decide)
      (by decide) rfl⟩

/-- C3: on a cache hit each handler returns the cached value as the badge
without invoking the upstream fetch; the statement holds for an arbitrary
cached string, which is exactly the code's behaviour of trusting the
cached value without re-validating it against the enumeration (the
claim's case of a valid token T is the instance `v = T`). -/
theorem c3_cache_hit_skips_fetch :
    (∀ env st fetch v, env.heroku_auth_token ≠ none → env.pipeline_id ≠ none →
      env.redis_url ≠ none → st.getConn = true →
      st.get "build_result" = some v →
      (last_test env st fetch).resp = send_badge_file v ∧
        (last_test env st fetch).fetchCount = 0) ∧
    (∀ env req st fetch a v, req.app = some a → env.redis_url ≠ none →
      st.getConn = true → st.get (a ++ "_deployed") = some v →
      (app_deployed env req st fetch).resp
        = send_heroku_badge v (deployStyle req) (deployExt req) ∧
        (app_deployed env req st fetch).fetchCount = 0) := by
  constructor
  · intro env st fetch v h1 h2 h3 hg hhit
    simp [last_test, h1, h2, h3, hg, hhit]
  · intro env req st fetch a v ha h3 hg hhit
    simp [app_deployed, ha, h3, hg, hhit]

/-- Witness for C3 at concrete pre-populated stores. -/
theorem c3_cache_hit_skips_fetch_witness :
    ((last_test envFull stCached none).resp = send_badge_file "succeeded" ∧
      (last_test envFull stCached none).fetchCount = 0) ∧
    ((app_deployed envFull reqApp stDeployCached (fun _ => "x")).resp
        = send_heroku_badge "heroku-succeeded" (deployStyle reqApp)
            (deployExt reqApp) ∧
      (app_deployed envFull reqApp stDeployCached (fun _ => "x")).fetchCount
        = 0) :=
  ⟨c3_cache_hit_skips_fetch.1 envFull stCached none "succeeded" (by decide)
      (by decide) (by decide) rfl rfl,
    c3_cache_hit_skips_fetch.2 envFull reqApp stDeployCached _ "myapp"
      "heroku-succeeded" rfl (by decide) rfl (by decide)⟩

/-- Counterexample to C4 as stated: with `CACHE_TIMEOUT` set to the
SUPERSCRIPT TWO character, a `/last.svg` cache miss whose fetch returns
the valid token `succeeded` does not return that token — `isdigit()`
accepts the string, `int()` raises an uncaught `ValueError`, and the
request crashes before any cache write. -/
theorem c4_unicode_timeout_counterexample :
    (last_test envSuper stEmpty (some "succeeded")).resp
      ≠ send_badge_file "succeeded" ∧
    (last_test envSuper stEmpty (some "succeeded")).resp = Response.uncaught ∧
    (last_test envSuper stEmpty (some "succeeded")).store.get "build_result"
      = none := by decide

/-- C4 amended: on a `/last.svg` cache miss where the fetch yields a
token of `BADGES_ENUM` and evaluating `CACHE_TIMEOUT` yields a value `n`
(the parsed configured value — in any decimal script — or the 900-second
default) instead of raising, the handler returns that token's badge and
afterwards the store holds it under `build_result` with expiry `n`; a
present override that passes `isdigit()` but is not decimal-parsable
instead crashes the request before the write. -/
theorem c4_miss_valid_fetch_caches :
    ∀ env st T n, env.heroku_auth_token ≠ none → env.pipeline_id ≠ none →
      env.redis_url ≠ none → st.getConn = true → st.setConn = true →
      st.get "build_result" = none → T ∈ BADGES_ENUM →
      timeout_eval env.cache_timeout = TimeoutEval.ok n →
      (last_test env st (some T)).resp = send_badge_file T ∧
      (last_test env st (some T)).store.get "build_result" = some T ∧
      (last_test env st (some T)).store.getTTL "build_result" = some n := by
  intro env st T n h1 h2 h3 hg hs hmiss hT hte
  have hrun : last_test env st (some T)
      = ⟨send_badge_file T, st.set "build_result" T n, 1, 1⟩ := by
    simp [last_test, h1, h2, h3, hg, hs, hmiss, hT, hte]
  rw [hrun]
  refine ⟨rfl, ?_, ?_⟩ <;> simp [Store.get, Store.getTTL, Store.set]

/-- Witness for the amended C4 with `CACHE_TIMEOUT` given as the
ARABIC-INDIC DIGIT THREE, which Python parses as the value 3. -/
theorem c4_miss_valid_fetch_caches_witness :
    (last_test envArabic stEmpty (some "failed")).resp
      = send_badge_file "failed" ∧
    (last_test envArabic stEmpty (some "failed")).store.get "build_result"
      = some "failed" ∧
    (last_test envArabic stEmpty (some "failed")).store.getTTL "build_result"
      = some 3 :=
  c4_miss_valid_fetch_caches envArabic stEmpty "failed" 3 (by decide)
    (by decide) (by decide) rfl rfl rfl (by decide) (by decide)

/-- Counterexample to C5 as stated: with a valid fetch result but a
failing `r.set` (the store's `set` raises `ConnectionError`), `/last.svg`
does not return the valid badge — the exception escapes the handler
uncaught, because line 99 of `app.py` is not inside any `try` block. -/
theorem c5_set_failure_counterexample :
    (last_test envFull stNoSet (some "succeeded")).resp = Response.uncaught ∧
    (last_test envFull stNoSet (some "succeeded")).resp
      ≠ send_badge_file "succeeded" := by decide

/-- C5 amended: a failure of the cache `set` operation crashes the
request — the redis exception propagates past the handler boundary; when
the `set` succeeds and the `CACHE_TIMEOUT` evaluation does not itself
raise, no uncaught exception escapes either handler, every other failure
path being an explicit branch that returns a badge (the `int()`
`ValueError` on an `isdigit`-but-non-decimal override is the one other
uncaught exception). -/
theorem c5_set_failure_crashes :
    (∀ env st fetch, st.setConn = true →
      timeout_eval env.cache_timeout ≠ TimeoutEval.valueError →
      (last_test env st fetch).resp ≠ Response.uncaught) ∧
    (∀ env req st fetch, st.setConn = true →
      timeout_eval env.cache_timeout ≠ TimeoutEval.valueError →
      (app_deployed env req st fetch).resp ≠ Response.uncaught) ∧
    (∀ env st T, env.heroku_auth_token ≠ none → env.pipeline_id ≠ none →
      env.redis_url ≠ none → st.getConn = true → st.setConn = false →
      st.get "build_result" = none → T ∈ BADGES_ENUM →
      (last_test env st (some T)).resp = Response.uncaught) := by
  refine ⟨?_, ?_, ?_⟩
  · intro env st fetch hs hte
    rcases last_test_resp_shape env st fetch with ⟨b, hb⟩ | ⟨hb, hf | hf⟩
    · rw [hb]; exact send_badge_file_ne_uncaught b
    · rw [hs] at hf; cases hf
    · exact absurd hf hte
  · intro env req st fetch hs hte
    rcases app_deployed_resp_shape env req st fetch with ⟨b, hb⟩ | ⟨hb, hf | hf⟩
    · rw [hb]; simp [send_heroku_badge]
    · rw [hs] at hf; cases hf
    · exact absurd hf hte
  · intro env st T h1 h2 h3 hg hs hmiss hT
    cases hte : timeout_eval env.cache_timeout with
    | ok n => simp [last_test, h1, h2, h3, hg, hs, hmiss, hT, hte]
    | valueError => simp [last_test, h1, h2, h3, hg, hmiss, hT, hte]

/-- Witness for the amended C5 at concrete stores. -/
theorem c5_set_failure_crashes_witness :
    (last_test envFull stEmpty (some "succeeded")).resp ≠ Response.uncaught ∧
    (app_deployed envFull reqApp stEmpty
      (fun _ => "heroku-succeeded")).resp ≠ Response.uncaught ∧
    (last_test envFull stNoSet (some "failed")).resp = Response.uncaught :=
  ⟨c5_set_failure_crashes.1 envFull stEmpty (some "succeeded") rfl (by decide),
    c5_set_failure_crashes.2.1 envFull reqApp stEmpty _ rfl (by decide),
    c5_set_failure_crashes.2.2 envFull stNoSet "failed" (by decide) (by decide)
      (by decide) rfl rfl rfl (by decide)⟩

/-- Counterexample to C6 as stated: a `/appdeployed` request that gives
the `svg` parameter as `1` still gets the `png` asset, not the `svg` one.
The query value is the string `'1'`, and `svg == 1` compares it with the
int literal `1`, which is false in Python. -/
theorem c6_svg_param_counterexample :
    (app_deployed envFull reqSvg1 stEmpty (fun _ => "heroku-succeeded")).resp
      = Response.file "heroku-succeeded.png" ∧
    (app_deployed envFull reqSvg1 stEmpty (fun _ => "heroku-succeeded")).resp
      ≠ Response.file "heroku-succeeded.svg" := by decide

/-- C6 amended: the returned badge asset's file extension is always
`png`: the `svg` query parameter arrives as a string (or defaults to the
int `0`) and is compared by integer equality against the literal `1`, so
only the literal int — which no query value produces — would select
`svg`.  Every file `/appdeployed` serves therefore ends in `.png`. -/
theorem c6_extension_always_png :
    ∀ req : Req, deployExt req = "png" ∧
      ∀ env st fetch p,
        (app_deployed env req st fetch).resp = Response.file p →
        ∃ b, p = b ++ deployStyle req ++ "." ++ "png" := by
  intro req
  have hext : deployExt req = "png" := by
    cases h : req.svg <;> simp [deployExt, h, pyEq]
  refine ⟨hext, ?_⟩
  intro env st fetch p hp
  rcases app_deployed_resp_shape env req st fetch with ⟨b, hb⟩ | ⟨hb, _⟩
  · rw [hb, hext] at hp
    unfold send_heroku_badge at hp
    exact ⟨b, (Response.file.injEq _ _ ▸ hp.symm)⟩
  · rw [hb] at hp; cases hp

/-- Witness for the amended C6 at a concrete request with `svg=1`. -/
theorem c6_extension_always_png_witness :
    deployExt reqSvg1 = "png" ∧
    ∃ b, "heroku-succeeded.png" = b ++ deployStyle reqSvg1 ++ "." ++ "png" :=
  ⟨(c6_extension_always_png reqSvg1).1,
    (c6_extension_always_png reqSvg1).2 envFull stEmpty
      (fun _ => "heroku-succeeded") "heroku-succeeded.png" (by decide)⟩

/-- C7 at the failing input: `CACHE_TIMEOUT` set to the SUPERSCRIPT TWO
character is present and not a syntactically valid non-negative integer
string, yet the request is aborted rather than falling back to the
900-second default — the string passes the `isdigit()` guard (intended,
per the code's own comments, to mean "the given timeout is valid"), and
`int()` then raises a `ValueError` nothing catches.  For an override
failing `isdigit()`, such as `abc`, the fallback behaves as the claim
says. -/
theorem c7_unicode_timeout_crash :
    py_isdigit "²" = true ∧
    py_int_parse "²" = none ∧
    timeout_eval (some "²") = TimeoutEval.valueError ∧
    timeout_eval (some "abc") = TimeoutEval.ok CACHE_TIMEOUT_DEFAULT ∧
    (last_test envSuper stEmpty (some "succeeded")).resp = Response.uncaught ∧
    (last_test envSuper stEmpty (some "succeeded")).store = stEmpty ∧
    (last_test envBadTimeout stEmpty (some "errored")).resp
      = send_badge_file "errored" ∧
    (last_test envBadTimeout stEmpty (some "errored")).store.getTTL
      "build_result" = some CACHE_TIMEOUT_DEFAULT := by decide

/-- C8: when a mandatory input is absent — the auth token, pipeline id or
redis URL for `/last.svg`; the app parameter or redis URL for
`/appdeployed` — the handler terminates immediately with its error or
failed badge, and neither the cache `get` nor the upstream fetch is ever
invoked (both counts are zero, the store untouched). -/
theorem c8_missing_config_terminal :
    (∀ env st fetch,
      (env.heroku_auth_token = none ∨ env.pipeline_id = none ∨
        env.redis_url = none) →
      (last_test env st fetch).resp = send_badge_file "error" ∧
        (last_test env st fetch).getCount = 0 ∧
        (last_test env st fetch).fetchCount = 0 ∧
        (last_test env st fetch).store = st) ∧
    (∀ env req st fetch, (req.app = none ∨ env.redis_url = none) →
      (app_deployed env req st fetch).resp
        = send_heroku_badge "heroku-failed" (deployStyle req) (deployExt req) ∧
        (app_deployed env req st fetch).getCount = 0 ∧
        (app_deployed env req st fetch).fetchCount = 0 ∧
        (app_deployed env req st fetch).store = st) := by
  constructor
  · intro env st fetch h
    unfold last_test
    rcases h with h | h | h
    · simp [h]
    · rcases ha : env.heroku_auth_token with _ | t
      · simp [ha]
      · simp [ha, h]
    · rcases ha : env.heroku_auth_token with _ | t
      · simp [ha]
      · rcases hp : env.pipeline_id with _ | p
        · simp [ha, hp]
        · simp [ha, hp, h]
  · intro env req st fetch h
    unfold app_deployed
    rcases h with h | h
    · simp [h]
    · rcases ha : req.app with _ | a
      · simp [ha]
      · simp [ha, h]

/-- Witness for C8 with everything unset. -/
theorem c8_missing_config_terminal_witness :
    ((last_test envNone stEmpty none).resp = send_badge_file "error" ∧
      (last_test envNone stEmpty none).getCount = 0 ∧
      (last_test envNone stEmpty none).fetchCount = 0 ∧
      (last_test envNone stEmpty none).store = stEmpty) ∧
    ((app_deployed envNone reqNoApp stEmpty (fun _ => "x")).resp
        = send_heroku_badge "heroku-failed" (deployStyle reqNoApp)
            (deployExt reqNoApp) ∧
      (app_deployed envNone reqNoApp stEmpty (fun _ => "x")).getCount = 0 ∧
      (app_deployed envNone reqNoApp stEmpty (fun _ => "x")).fetchCount = 0 ∧
      (app_deployed envNone reqNoApp stEmpty (fun _ => "x")).store = stEmpty) :=
  ⟨c8_missing_config_terminal.1 envNone stEmpty none (Or.inl rfl),
    c8_missing_config_terminal.2 envNone reqNoApp stEmpty _ (Or.inl rfl)⟩

/-- Counterexample to C9 as stated: with the fully working empty store
but `CACHE_TIMEOUT` set to the SUPERSCRIPT TWO character, the first
`/last.svg` request fetches and then crashes at `int()` before caching,
so the second consecutive request misses again and fetches again — two
upstream fetches across the pair instead of one, and no badge served. -/
theorem c9_double_fetch_counterexample :
    (last_test envSuper stEmpty (some "succeeded")).fetchCount
      + (last_test envSuper
          (last_test envSuper stEmpty (some "succeeded")).store
          (some "succeeded")).fetchCount = 2 ∧
    (last_test envSuper stEmpty (some "succeeded")).resp
      = Response.uncaught := by decide

/-- C9 amended: two consecutive `/last.svg` requests against a working
store that misses on the first request (so both fall inside the TTL
window opened by the first fetch) return the identical badge, and the
upstream fetch runs exactly once across the two requests — the second
request is served from the cache whatever its fetch would have returned
— provided evaluating `CACHE_TIMEOUT` yields a value rather than raising
(an `isdigit`-but-non-decimal override crashes the first request before
it caches, and the second request fetches again). -/
theorem c9_two_requests_single_fetch :
    ∀ env st T fetch2 n, env.heroku_auth_token ≠ none →
      env.pipeline_id ≠ none → env.redis_url ≠ none → st.getConn = true →
      st.setConn = true → st.get "build_result" = none → T ∈ BADGES_ENUM →
      timeout_eval env.cache_timeout = TimeoutEval.ok n →
      (last_test env (last_test env st (some T)).store fetch2).resp
        = (last_test env st (some T)).resp ∧
      (last_test env st (some T)).fetchCount
        + (last_test env (last_test env st (some T)).store fetch2).fetchCount
        = 1 := by
  intro env st T fetch2 n h1 h2 h3 hg hs hmiss hT hte
  have hrun : last_test env st (some T)
      = ⟨send_badge_file T, st.set "build_result" T n, 1, 1⟩ := by
    simp [last_test, h1, h2, h3, hg, hs, hmiss, hT, hte]
  rw [hrun]
  have hhit : (st.set "build_result" T n).get "build_result" = some T := by
    simp [Store.get, Store.set]
  simp [last_test, h1, h2, h3, Store.set, hg, hhit, Store.get]

/-- Witness for C9 from the empty configured store. -/
theorem c9_two_requests_single_fetch_witness :
    (last_test envFull (last_test envFull stEmpty (some "succeeded")).store
        none).resp
      = (last_test envFull stEmpty (some "succeeded")).resp ∧
    (last_test envFull stEmpty (some "succeeded")).fetchCount
      + (last_test envFull
          (last_test envFull stEmpty (some "succeeded")).store none).fetchCount
      = 1 :=
  c9_two_requests_single_fetch envFull stEmpty "succeeded" none 900 (by decide)
    (by decide) (by decide) rfl rfl rfl (by decide) (by decide)

/-- C10: `send_badge_file` serves exactly the four files
`succeeded.svg`, `failed.svg`, `errored.svg`, `error.svg`: a member of
`FILES_ENUM` is served as its `.svg` file, any other argument trips the
`assert`; every file `/last.svg` ever serves is one of those four; and a
cached value outside `FILES_ENUM` makes the handler raise the assertion
failure instead of serving an asset. -/
theorem c10_badge_files_enumeration :
    (∀ b, b ∈ FILES_ENUM → send_badge_file b = Response.file (b ++ ".svg")) ∧
    (∀ b, b ∉ FILES_ENUM → send_badge_file b = Response.assertFail) ∧
    (∀ env st fetch p, (last_test env st fetch).resp = Response.file p →
      p ∈ ["succeeded.svg", "failed.svg", "errored.svg", "error.svg"]) ∧
    (∀ env st fetch v, env.heroku_auth_token ≠ none → env.pipeline_id ≠ none →
      env.redis_url ≠ none → st.getConn = true →
      st.get "build_result" = some v → v ∉ FILES_ENUM →
      (last_test env st fetch).resp = Response.assertFail) := by
  refine ⟨?_, ?_, ?_, ?_⟩
  · intro b hb; simp [send_badge_file, hb]
  · intro b hb; simp [send_badge_file, hb]
  · intro env st fetch p hp
    rcases last_test_resp_shape env st fetch with ⟨b, hb⟩ | ⟨hb, _⟩
    · rw [hb] at hp
      obtain ⟨hmem, rfl⟩ := send_badge_file_eq_file b p hp
      simp [FILES_ENUM, BADGES_ENUM] at hmem
      rcases hmem with rfl | rfl | rfl | rfl <;> decide
    · rw [hb] at hp; cases hp
  · intro env st fetch v h1 h2 h3 hg hhit hv
    have hresp : (last_test env st fetch).resp = send_badge_file v := by
      simp [last_test, h1, h2, h3, hg, hhit]
    rw [hresp]
    simp [send_badge_file, hv]

/-- Witness for C10: concrete members and non-members of `FILES_ENUM`,
and the handler asserting on a garbage cached value. -/
theorem c10_badge_files_enumeration_witness :
    send_badge_file "succeeded" = Response.file "succeeded.svg" ∧
    send_badge_file "garbage" = Response.assertFail ∧
    "succeeded.svg" ∈ ["succeeded.svg", "failed.svg", "errored.svg", "error.svg"] ∧
    (last_test envFull stGarbage none).resp = Response.assertFail := by
  refine ⟨?_, c10_badge_files_enumeration.2.1 "garbage" (by decide), ?_, ?_⟩
  · have h := c10_badge_files_enumeration.1 "succeeded" (by decide)
    simpa using h
  · exact c10_badge_files_enumeration.2.2.1 envFull stCached none
      "succeeded.svg" (by decide)
  · exact c10_badge_files_enumeration.2.2.2 envFull stGarbage none "garbage"
      (by decide) (by decide) (by decide) rfl rfl (by decide)
